import Mathlib

/-!
Verification of the text-to-structured-data extraction layer of the
health-analyzer edge functions.

The TypeScript source is embedded shallowly:

* JavaScript regular expressions (as used through `String.prototype.match`
  without the `g` flag) are modelled by a small backtracking matcher `mtch`
  over an abstract syntax `RE`.  The matcher reproduces JavaScript's
  leftmost-first search, the preference order of alternation and of greedy
  and lazy quantifiers, and the Annex-B treatment of `\Z` as an identity
  escape (a literal letter `Z`).  A structural fuel argument bounds the
  evaluation depth so that every definition is a computable `def`; the
  initial fuel is chosen far larger than any depth reachable on the inputs
  considered.
* Case-insensitive (`i` flag) matching is modelled by running the matcher
  over a pre-folded text: each character is paired with its lower-cased
  image (`prep`), literal nodes compare against the folded component while
  captures and case-sensitive literal nodes use the original component.
* The extraction functions (`parseAnalysisResults`, the per-domain
  extractors, score extractors and recommendation heuristics) are direct
  translations of the corresponding TypeScript functions.
* The request handlers are modelled as functions from an abstract request
  environment (method, parsed body, vision-adapter outcome, storage
  outcome) to a response record plus a trace of which side effects were
  reached.
-/

set_option maxRecDepth 100000

namespace HealthAnalyzer

/-- A text element: the original character paired with its lower-cased
image, precomputed once per input (models `text` together with
`text.toLowerCase()` which the source consults repeatedly). -/
abbrev Tok := Char × Char

/-- Folded text: the representation every matcher and scanner works on. -/
abbrev Txt := List Tok

/-- Pair every character of a string with its lower-cased image. -/
def prep (s : String) : Txt :=
  s.data.map (fun c => (c, c.toLower))

/-- The original characters of a folded text. -/
def rawOf (t : Txt) : List Char := t.map Prod.fst

/-- Back to a string, keeping the original characters. -/
def strOf (t : Txt) : String := String.mk (rawOf t)

/-- Strip a (lower-case) literal pattern from the front of a folded text,
comparing against the lower-cased component (case-insensitive literal of a
JavaScript regex with the `i` flag). -/
def stripPrefixL : List Char → Txt → Option Txt
  | [], t => some t
  | _ :: _, [] => none
  | p :: ps, c :: cs => if p == c.2 then stripPrefixL ps cs else none

/-- Strip a literal pattern from the front comparing against the original
characters (case-sensitive literal). -/
def stripPrefixR : List Char → Txt → Option Txt
  | [], t => some t
  | _ :: _, [] => none
  | p :: ps, c :: cs => if p == c.1 then stripPrefixR ps cs else none

/-- `text.toLowerCase().includes(pat)` for a lower-case pattern `pat`:
substring containment over the folded component. -/
def containsL (t : Txt) (p : List Char) : Bool :=
  (stripPrefixL p t).isSome ||
    match t with
    | [] => false
    | _ :: t' => containsL t' p

/-- Substring containment of `pat` in a plain character list
(`s.includes(pat)`, case-sensitive). -/
def containsR (s p : List Char) : Bool :=
  (List.isPrefixOf p s) ||
    match s with
    | [] => false
    | _ :: s' => containsR s' p

/-- `text.toLowerCase().includes(pat)` lifted to strings. -/
def hasSubLower (t : String) (p : String) : Bool :=
  containsL (prep t) p.data

/-- Character classes appearing in the embedded regexes.  Each test is
applied to the lower-cased component, which is equivalent for the
case-insensitive regexes of the source (`[A-Za-z]` with the `i` flag is
the same as `[a-z]` on folded characters). -/
inductive CCls where
  | dot      -- `.`  : any character except a line terminator
  | ws       -- `\s` : whitespace (ASCII portion)
  | digit    -- `\d`
  | word     -- `\w` : `[A-Za-z0-9_]`, folded
  | alpha    -- `[A-Za-z]`, folded
  | wsColon  -- `[\s:]`
  deriving DecidableEq

/-- Whitespace characters recognised by JavaScript's `\s` (ASCII part). -/
def wsChar (c : Char) : Bool :=
  c == ' ' || c == '\t' || c == '\n' || c == '\r' ||
  c == Char.ofNat 11 || c == Char.ofNat 12

def cclsTest : CCls → Char → Bool
  | .dot, c => !(c == '\n' || c == '\r')
  | .ws, c => wsChar c
  | .digit, c => '0' ≤ c && c ≤ '9'
  | .word, c => ('a' ≤ c && c ≤ 'z') || ('0' ≤ c && c ≤ '9') || c == '_'
  | .alpha, c => 'a' ≤ c && c ≤ 'z'
  | .wsColon, c => wsChar c || c == ':'

/-- Abstract syntax of the regex fragment the source uses.  `lit` is a
case-insensitive literal (the pattern is stored lower-cased), `litR` a
case-sensitive one.  Greedy and lazy stars are separate constructors;
`+` is expressed as `cat r (star r)` below.  `grp` is the single capturing
group each source regex contains. -/
inductive RE where
  | lit : List Char → RE
  | litR : List Char → RE
  | cls : CCls → RE
  | cat : RE → RE → RE
  | alt : RE → RE → RE
  | opt : RE → RE
  | star : RE → RE
  | starL : RE → RE
  | grp : RE → RE

/-- First-success combinator used for alternation backtracking. -/
def orElse2 (a : Option α) (b : Unit → Option α) : Option α :=
  match a with
  | some x => some x
  | none => b ()

/-- The value of the capturing group once a match succeeds. -/
abbrev Caps := Option Txt

/-- Continuations receive the remaining text and the capture so far. -/
abbrev Cont := Txt → Caps → Option Caps

/-- Backtracking matcher, a direct model of a JavaScript regex engine:
alternation prefers the left branch, `opt`/`star` are greedy, `starL` is
lazy, and an iteration of a quantifier that consumes nothing terminates
the quantifier (ECMA-262 RepeatMatcher).  The fuel argument only bounds
the recursion depth; callers pass a fuel that is never exhausted on the
texts considered (each nesting level or quantifier iteration costs one
unit). -/
def mtch : Nat → RE → Txt → Caps → Cont → Option Caps
  | 0, _, _, _, _ => none
  | fuel + 1, re, s, c, k =>
    match re with
    | .lit p =>
      match stripPrefixL p s with
      | some s' => k s' c
      | none => none
    | .litR p =>
      match stripPrefixR p s with
      | some s' => k s' c
      | none => none
    | .cls cc =>
      match s with
      | [] => none
      | ch :: s' => if cclsTest cc ch.2 then k s' c else none
    | .cat r1 r2 => mtch fuel r1 s c (fun s' c' => mtch fuel r2 s' c' k)
    | .alt r1 r2 =>
      orElse2 (mtch fuel r1 s c k) (fun _ => mtch fuel r2 s c k)
    | .opt r => orElse2 (mtch fuel r s c k) (fun _ => k s c)
    | .star r =>
      orElse2
        (mtch fuel r s c (fun s' c' =>
          if s'.length < s.length then mtch fuel (.star r) s' c' k else none))
        (fun _ => k s c)
    | .starL r =>
      orElse2 (k s c) (fun _ =>
        mtch fuel r s c (fun s' c' =>
          if s'.length < s.length then mtch fuel (.starL r) s' c' k else none))
    | .grp r =>
      mtch fuel r s c (fun s' _ => k s' (some (s.take (s.length - s'.length))))

/-- Fuel that over-approximates any reachable matcher depth on `s`. -/
def fuelFor (s : Txt) : Nat := 4 * s.length + 256

/-- Try to match `re` at the very start of `s`; on success return the
capture of the (single) group, `some none` if the group never matched. -/
def reTry (re : RE) (s : Txt) : Option Caps :=
  mtch (fuelFor s) re s none (fun _ c => some c)

/-- `s.match(re)` without the `g` flag: scan start positions left to
right and return the group capture of the first successful match
(`none` = the regex does not match anywhere). -/
def reSearch (re : RE) (s : Txt) : Option Caps :=
  match reTry re s with
  | some c => some c
  | none =>
    match s with
    | [] => none
    | _ :: s' => reSearch re s'

/-- Match `re` at the start of `s` and return the remaining text after the
match (used by the regex `split` model). -/
def reConsume (re : RE) (s : Txt) : Option Txt :=
  mtch (fuelFor s) re s none (fun s' _ => some (some s')) |>.bind id

/-- Case-insensitive literal from a (lower-case) string. -/
def strL (s : String) : RE := .lit s.data

/-- Sequence a non-empty list of regexes. -/
def seqAll : RE → List RE → RE
  | r, [] => r
  | r, r2 :: rs => .cat r (seqAll r2 rs)

/-- Alternation over a non-empty list, preferring earlier entries. -/
def altOf : RE → List RE → RE
  | r, [] => r
  | r, r2 :: rs => .alt r (altOf r2 rs)

/-- `r+` (greedy). -/
def plusG (r : RE) : RE := .cat r (.star r)

/-- `r+?` (lazy). -/
def plusL (r : RE) : RE := .cat r (.starL r)

/-- `\s+`. -/
def ws1 : RE := plusG (.cls .ws)

/-- `\s*`. -/
def ws0 : RE := .star (.cls .ws)

/-- `(?:.+\n?)+?` — the section body of every section regex. -/
def bodyRE : RE := plusL (.cat (plusG (.cls .dot)) (.opt (strL "\n")))

/-- `\Z` in a JavaScript regex is an Annex-B identity escape: it matches a
literal `Z` (and `z` under the `i` flag), not end of input. -/
def litZ : RE := strL "z"

/-- `(?:HEADS):?.*?\n(BODY)TERM` — the shared shape of every section
regex of the source. -/
def sectionRE (heads : RE) (term : RE) : RE :=
  seqAll heads [.opt (strL ":"), .starL (.cls .dot), strL "\n", .grp bodyRE, term]

/-- `(?:\n\n|\n[A-Za-z]+:|\Z)`. -/
def termFull : RE :=
  altOf (strL "\n\n") [seqAll (strL "\n") [plusG (.cls .alpha), strL ":"], litZ]

/-- `(?:\n\n|\Z)`. -/
def termShort : RE := .alt (strL "\n\n") litZ

/-- `/(?:concerns|potential concerns|issues|potential issues):?.*?\n((?:.+\n?)+?)(?:\n\n|\n[A-Za-z]+:|\Z)/i`
(openai.ts, `parseAnalysisResults`). -/
def concernsRE : RE :=
  sectionRE
    (altOf (strL "concerns")
      [strL "potential concerns", strL "issues", strL "potential issues"])
    termFull

/-- `/(?:recommendations|suggested actions|advice|suggestions):?.*?\n((?:.+\n?)+?)(?:\n\n|\Z)/i`
(openai.ts, `parseAnalysisResults`). -/
def recommendationsRE : RE :=
  sectionRE
    (altOf (strL "recommendations")
      [strL "suggested actions", strL "advice", strL "suggestions"])
    termShort

/-- Split a folded text at every `'\n'` (`String.prototype.split('\n')`). -/
def splitNl : Txt → List Txt
  | [] => [[]]
  | c :: rest =>
    if c.1 == '\n' then [] :: splitNl rest
    else
      match splitNl rest with
      | [] => [[c]]
      | seg :: segs => (c :: seg) :: segs

/-- `line.replace(/^-\s*/, '')`: drop one leading `-` and the whitespace
run after it. -/
def stripBullet (t : Txt) : Txt :=
  match t with
  | [] => []
  | c :: rest => if c.1 == '-' then rest.dropWhile (fun d => wsChar d.1) else t

/-- `line.trim()`. -/
def jsTrim (t : Txt) : Txt :=
  ((t.dropWhile (fun c => wsChar c.1)).reverse.dropWhile
    (fun c => wsChar c.1)).reverse

/-- The line postprocessing every section extraction applies to the body
capture: split on newlines, strip bullets, trim, drop empties. -/
def sectionLines (g : Txt) : List Txt :=
  ((splitNl g).map (fun ln => jsTrim (stripBullet ln))).filter
    (fun ln => !ln.isEmpty)

/-- Run a section regex and postprocess, mirroring
`if (m && m[1]) { ... m[1].split('\n').map(...).filter(Boolean) }`
(an unset or empty capture is falsy in JavaScript). -/
def sectionOf (re : RE) (s : Txt) : List String :=
  match reSearch re s with
  | some (some g) => if g.isEmpty then [] else (sectionLines g).map strOf
  | _ => []

/-- Result of `parseAnalysisResults` (openai.ts). -/
structure ParsedResult where
  analysis : String
  concerns : List String
  recommendations : List String
  deriving DecidableEq

/-- `parseAnalysisResults` (openai.ts lines 142-182): the default
structure keeps the input verbatim in `analysis`; each section is filled
only when its regex matches with a non-empty capture.  The surrounding
`try/catch` is unreachable for string input, and the `catch` branch
returns the same fallback as the default structure. -/
def parseAnalysisResults (analysisText : String) : ParsedResult :=
  let s := prep analysisText
  { analysis := analysisText
    concerns := sectionOf concernsRE s
    recommendations := sectionOf recommendationsRE s }

/-! ### Sentence splitting, dedup and the keyword fallback -/

/-- Worker for `splitSentences`: `inSep` records that we are inside a
whitespace run that started right after `.`, `!` or `?` (the separator
`(?<=[.!?])\s+` of the source); `prev` is the previous original
character. -/
def ssGo : Txt → Txt → Option Char → Bool → List Txt
  | [], cur, _, _ => [cur.reverse]
  | c :: rest, cur, prev, inSep =>
    if wsChar c.1 then
      if inSep then ssGo rest cur (some c.1) true
      else if prev == some '.' || prev == some '!' || prev == some '?' then
        cur.reverse :: ssGo rest [] (some c.1) true
      else ssGo rest (c :: cur) (some c.1) false
    else ssGo rest (c :: cur) (some c.1) false

/-- `text.split(/(?<=[.!?])\s+/)`: cut at every maximal whitespace run
that follows a sentence-ending punctuation mark. -/
def splitSentences (t : Txt) : List Txt := ssGo t [] none false

/-- Worker for `dedupFirst`. -/
def dedupFirstGo : List String → List String → List String
  | _, [] => []
  | seen, x :: xs =>
    if x ∈ seen then dedupFirstGo seen xs
    else x :: dedupFirstGo (x :: seen) xs

/-- `[...new Set(items)]`: first-occurrence deduplication under exact
string equality, preserving order. -/
def dedupFirst (l : List String) : List String := dedupFirstGo [] l

/-- Run a section regex and postprocess, keeping folded lines. -/
def sectionTxtsOf (re : RE) (s : Txt) : List Txt :=
  match reSearch re s with
  | some (some g) => if g.isEmpty then [] else sectionLines g
  | _ => []

/-- The keyword fallback shared by the dental/skin/posture/stool list
extractors: for each keyword contained in the text but in no accumulated
entry, append the first sentence containing it (trimmed). -/
def kwFold (t : Txt) (sents : List Txt) : List (List Char) → List Txt → List Txt
  | [], acc => acc
  | kw :: kws, acc =>
    let acc' :=
      if containsL t kw && !(acc.any (fun i => containsL i kw)) then
        match sents.find? (fun sen => containsL sen kw) with
        | some sen => acc ++ [jsTrim sen]
        | none => acc
      else acc
    kwFold t sents kws acc'

/-- Section extraction followed by the keyword fallback and `Set`
deduplication — the common body of `extractDentalIssues`,
`extractSkinConditions`, `extractPostureIssues` and
`extractAbnormalities`. -/
def keywordExtract (secRE : RE) (kws : List String) (analysisText : String) :
    List String :=
  let s := prep analysisText
  let sects := sectionTxtsOf secRE s
  let sents := splitSentences s
  dedupFirst ((kwFold s sents (kws.map String.data) sects).map strOf)

/-! ### Domain section regexes and keyword vocabularies -/

/-- `/(?:dental issues|problems|concerns):?.*?\n(...)/i` (dental-check). -/
def dentalIssuesRE : RE :=
  sectionRE (altOf (strL "dental issues") [strL "problems", strL "concerns"]) termFull

def dentalKeywords : List String :=
  ["cavity", "cavities", "decay", "plaque", "tartar", "gingivitis",
   "periodontal", "discoloration", "staining", "misalignment",
   "crooked", "wisdom tooth", "inflamed gums", "receding gums"]

/-- `/(?:skin conditions|skin issues|potential conditions):?.*?\n(...)/i` (skin-tracker). -/
def skinConditionsRE : RE :=
  sectionRE (altOf (strL "skin conditions") [strL "skin issues", strL "potential conditions"])
    termFull

def skinKeywords : List String :=
  ["acne", "rosacea", "eczema", "psoriasis", "dermatitis",
   "folliculitis", "hives", "rash", "melanoma", "mole",
   "sunburn", "hyperpigmentation", "dryness", "irritation"]

/-- `/(?:posture issues|problems|imbalances|concerns):?.*?\n(...)/i` (posture-check). -/
def postureIssuesRE : RE :=
  sectionRE
    (altOf (strL "posture issues") [strL "problems", strL "imbalances", strL "concerns"])
    termFull

def postureKeywords : List String :=
  ["forward head", "rounded shoulders", "kyphosis", "lordosis", "scoliosis",
   "anterior pelvic tilt", "posterior pelvic tilt", "hunched", "slouched",
   "uneven shoulders", "head tilt", "neck strain", "text neck", "uneven hips",
   "flat back", "swayback", "military posture", "misalignment"]

/-- `/(?:abnormalities|unusual\s+features|concerning\s+features|notable\s+findings|issues|problems):?.*?\n(...)/i`
(poop-health). -/
def abnormalitiesRE : RE :=
  sectionRE
    (altOf (strL "abnormalities")
      [seqAll (strL "unusual") [ws1, strL "features"],
       seqAll (strL "concerning") [ws1, strL "features"],
       seqAll (strL "notable") [ws1, strL "findings"],
       strL "issues", strL "problems"])
    termFull

def abnormalityKeywords : List String :=
  ["blood", "mucus", "pus", "undigested", "parasite", "worm",
   "black", "tarry", "pale", "greasy", "floating", "foul",
   "diarrhea", "constipation", "irregular", "abnormal"]

/-- `/(?:exercise recommendations|exercises|stretches|recommended exercises):?.*?\n(...)/i`
(posture-check). -/
def exerciseSecRE : RE :=
  sectionRE
    (altOf (strL "exercise recommendations")
      [strL "exercises", strL "stretches", strL "recommended exercises"])
    termFull

/-- `/recommendations:?.*?\n((?:.+\n?)+?)(?:\n\n|\Z)/i` — the fallback
regex inside `extractExerciseRecommendations`. -/
def recFallbackRE : RE := sectionRE (strL "recommendations") termShort

def exerciseKeywords : List String :=
  ["exercise", "stretch", "strengthen", "posture", "workout",
   "yoga", "pilates", "mobility", "flexibility", "core",
   "shoulders", "neck", "back", "spine", "chest"]

/-- `/(?:food items|ingredients|contents|meal contains|dish consists of):?.*?\n(...)/i`
(nutri-snap). -/
def foodItemsRE : RE :=
  sectionRE
    (altOf (strL "food items")
      [strL "ingredients", strL "contents", strL "meal contains", strL "dish consists of"])
    termFull

/-- `/(?:assessment|analysis|overview):?.*?\n(...)/i` (nutri-snap fallback). -/
def assessmentRE : RE :=
  sectionRE (altOf (strL "assessment") [strL "analysis", strL "overview"]) termFull

/-! ### The four list extractors built on the keyword fallback -/

/-- `extractDentalIssues` (dental-check handler). -/
def extractDentalIssues (analysisText : String) : List String :=
  keywordExtract dentalIssuesRE dentalKeywords analysisText

/-- `extractSkinConditions` (skin-tracker handler). -/
def extractSkinConditions (analysisText : String) : List String :=
  keywordExtract skinConditionsRE skinKeywords analysisText

/-- `extractPostureIssues` (posture-check handler). -/
def extractPostureIssues (analysisText : String) : List String :=
  keywordExtract postureIssuesRE postureKeywords analysisText

/-- `extractAbnormalities` (poop-health handler). -/
def extractAbnormalities (analysisText : String) : List String :=
  keywordExtract abnormalitiesRE abnormalityKeywords analysisText

/-- `extractExerciseRecommendations` (posture-check handler): section
extraction, then a fallback that keeps recommendation lines mentioning an
exercise keyword. -/
def extractExerciseRecommendations (analysisText : String) : List String :=
  let s := prep analysisText
  let exs := sectionTxtsOf exerciseSecRE s
  let exs :=
    if exs.isEmpty then
      (sectionTxtsOf recFallbackRE s).foldl
        (fun acc line =>
          if exerciseKeywords.any (fun kw => containsL line kw.data) then acc ++ [line]
          else acc) []
    else exs
  dedupFirst (exs.map strOf)

/-! ### Food-item extraction (nutri-snap) -/

def foodPhrases : List String :=
  ["contains", "consists of", "includes", "composed of",
   "made up of", "visible", "appears to be", "appears to have"]

/-- `new RegExp(phrase + '\\s+', 'i')`. -/
def phraseSepRE (p : String) : RE := .cat (strL p) ws1

/-- `/,\s*|\s+and\s+|\s*&\s*/` — no `i` flag, hence case-sensitive
literals. -/
def commaSepRE : RE :=
  altOf (.cat (.litR (String.data ",")) ws0)
    [seqAll ws1 [.litR (String.data "and"), ws1],
     seqAll ws0 [.litR (String.data "&"), ws0]]

/-- Worker for `splitByRE`: either a separator match consumes at least
one character or the scan advances one character. -/
def splitByREGo : Nat → RE → Txt → Txt → List Txt
  | 0, _, cur, rest => [cur.reverse ++ rest]
  | fuel + 1, re, cur, rest =>
    match reConsume re rest with
    | some rem =>
      if rem.length < rest.length then cur.reverse :: splitByREGo fuel re [] rem
      else
        match rest with
        | [] => [cur.reverse]
        | c :: rest' => splitByREGo fuel re (c :: cur) rest'
    | none =>
      match rest with
      | [] => [cur.reverse]
      | c :: rest' => splitByREGo fuel re (c :: cur) rest'

/-- `s.split(re)` for a separator regex without capturing groups. -/
def splitByRE (re : RE) (t : Txt) : List Txt := splitByREGo (t.length + 1) re [] t

/-- `part.replace(/\.$/, '')`. -/
def dropTrailingDot (t : Txt) : Txt :=
  match t.reverse with
  | c :: rest => if c.1 == '.' then rest.reverse else t
  | [] => t

/-- `extractFoodItems` (nutri-snap handler): food-item section, else scan
assessment sentences for connector phrases and split what follows on
commas, `and` and `&`. -/
def extractFoodItems (analysisText : String) : List String :=
  let s := prep analysisText
  let items := sectionTxtsOf foodItemsRE s
  let items :=
    if items.isEmpty then
      match reSearch assessmentRE s with
      | some (some g) =>
        if g.isEmpty then []
        else
          (splitSentences g).foldl
            (fun acc sen =>
              match foodPhrases.find? (fun p => containsL sen p.data) with
              | some p =>
                match splitByRE (phraseSepRE p) sen with
                | _ :: p1 :: _ =>
                  acc ++
                    ((splitByRE commaSepRE (dropTrailingDot p1)).map jsTrim).filter
                      (fun x => !x.isEmpty)
                | _ => acc
              | none => acc) []
      | _ => []
    else items
  dedupFirst (items.map strOf)

/-! ### Numeric score extraction -/

/-- Interpret the digits matched by `(\d+)` (`parseInt(·, 10)`). -/
def parseDigits (l : List Char) : Nat :=
  l.foldl (fun n c => 10 * n + (c.toNat - 48)) 0

/-- `\s*(?:is|of|:|=)?\s*(\d+)(?:\s*\/\s*|\s+out\s+of\s+)(?:10|ten)` —
the tail shared by all four score regexes. -/
def scoreTail : RE :=
  seqAll ws0
    [.opt (altOf (strL "is") [strL "of", strL ":", strL "="]), ws0,
     .grp (plusG (.cls .digit)),
     .alt (seqAll ws0 [strL "/", ws0]) (seqAll ws1 [strL "out", ws1, strL "of", ws1]),
     .alt (strL "10") (strL "ten")]

/-- `/(?:oral hygiene|hygiene)\s+score\s*...(\d+).../i` (dental-check). -/
def hygieneScoreRE : RE :=
  seqAll (.alt (strL "oral hygiene") (strL "hygiene")) [ws1, strL "score", scoreTail]

/-- `/(?:severity|condition)\s+(?:score|rating|level)\s*...(\d+).../i` (skin-tracker). -/
def severityScoreRE : RE :=
  seqAll (.alt (strL "severity") (strL "condition"))
    [ws1, altOf (strL "score") [strL "rating", strL "level"], scoreTail]

/-- `/(?:posture)\s+(?:score|rating)\s*...(\d+).../i` (posture-check). -/
def postureScoreRE : RE :=
  seqAll (strL "posture") [ws1, .alt (strL "score") (strL "rating"), scoreTail]

/-- `/(?:health|nutritional|nutrition)\s+(?:score|rating|value)\s*...(\d+).../i` (nutri-snap). -/
def healthScoreRE : RE :=
  seqAll (altOf (strL "health") [strL "nutritional", strL "nutrition"])
    [ws1, altOf (strL "score") [strL "rating", strL "value"], scoreTail]

/-- Shared body of the four score extractors: first match wins, the
parsed number is kept only if it lies in `[lo, hi]`. -/
def scoreOf (re : RE) (lo hi : Nat) (analysisText : String) : Option Nat :=
  match reSearch re (prep analysisText) with
  | some (some g) =>
    if g.isEmpty then none
    else
      let n := parseDigits (rawOf g)
      if lo ≤ n ∧ n ≤ hi then some n else none
  | _ => none

/-- `extractOralHygieneScore` (dental-check handler). -/
def extractOralHygieneScore (analysisText : String) : Option Nat :=
  scoreOf hygieneScoreRE 1 10 analysisText

/-- `extractSeverityScore` (skin-tracker handler). -/
def extractSeverityScore (analysisText : String) : Option Nat :=
  scoreOf severityScoreRE 1 10 analysisText

/-- `extractPostureScore` (posture-check handler). -/
def extractPostureScore (analysisText : String) : Option Nat :=
  scoreOf postureScoreRE 1 10 analysisText

/-- `extractHealthScore` (nutri-snap handler). -/
def extractHealthScore (analysisText : String) : Option Nat :=
  scoreOf healthScoreRE 1 10 analysisText

/-! ### Bristol type extraction (poop-health) -/

/-- `(?:\s+is|\s*:\s*|\s+-\s*|\s+appears\s+to\s+be\s+)` — note that the
`\s+is` alternative is not followed by any whitespace matcher. -/
def bristolConnector : RE :=
  altOf (.cat ws1 (strL "is"))
    [seqAll ws0 [strL ":", ws0],
     seqAll ws1 [strL "-", ws0],
     seqAll ws1 [strL "appears", ws1, strL "to", ws1, strL "be", ws1]]

/-- `/(?:bristol(?:\s+stool)?\s+(?:scale|type|category|class)(?:\s+classification)?|stool\s+type)(?:\s+is|\s*:\s*|\s+-\s*|\s+appears\s+to\s+be\s+)(?:type\s+)?(\d+)/i`. -/
def bristolRE1 : RE :=
  seqAll
    (.alt
      (seqAll (strL "bristol")
        [.opt (.cat ws1 (strL "stool")), ws1,
         altOf (strL "scale") [strL "type", strL "category", strL "class"],
         .opt (.cat ws1 (strL "classification"))])
      (seqAll (strL "stool") [ws1, strL "type"]))
    [bristolConnector, .opt (.cat (strL "type") ws1), .grp (plusG (.cls .digit))]

/-- `/(?:type|category|class)(?:\s+is|\s*:\s*|\s+-\s*|\s+appears\s+to\s+be\s+)(?:type\s+)?(\d+)(?:\s+on\s+the\s+bristol)/i`. -/
def bristolRE2 : RE :=
  seqAll (altOf (strL "type") [strL "category", strL "class"])
    [bristolConnector, .opt (.cat (strL "type") ws1), .grp (plusG (.cls .digit)),
     seqAll ws1 [strL "on", ws1, strL "the", ws1, strL "bristol"]]

/-- One stage of `extractBristolType`: like `scoreOf` with bound `[1, 7]`;
an out-of-range match falls through to the next stage. -/
def bristolStage (re : RE) (s : Txt) : Option Nat :=
  match reSearch re s with
  | some (some g) =>
    if g.isEmpty then none
    else
      let n := parseDigits (rawOf g)
      if 1 ≤ n ∧ n ≤ 7 then some n else none
  | _ => none

/-- `extractBristolType` (poop-health handler): primary pattern, then the
alternative word order `type N ... on the bristol`. -/
def extractBristolType (analysisText : String) : Option Nat :=
  let s := prep analysisText
  match bristolStage bristolRE1 s with
  | some n => some n
  | none => bristolStage bristolRE2 s

/-! ### Hydration level extraction (poop-health) -/

inductive HydrationLevel where
  | low
  | normal
  | good
  deriving DecidableEq

/-- `/(?:hydration|water\s+intake|fluid\s+intake)(?:\s+appears|\s+seems|\s+is|\s+looks|\s+level|\s+status|\s+indicator)?(?:\s+to\s+be)?(?:\s+is)?[\s:]*(\w+)/i`. -/
def hydrationRE : RE :=
  seqAll
    (altOf (strL "hydration")
      [seqAll (strL "water") [ws1, strL "intake"],
       seqAll (strL "fluid") [ws1, strL "intake"]])
    [.opt (altOf (.cat ws1 (strL "appears"))
      [.cat ws1 (strL "seems"), .cat ws1 (strL "is"), .cat ws1 (strL "looks"),
       .cat ws1 (strL "level"), .cat ws1 (strL "status"), .cat ws1 (strL "indicator")]),
     .opt (seqAll ws1 [strL "to", ws1, strL "be"]),
     .opt (.cat ws1 (strL "is")),
     .star (.cls .wsColon),
     .grp (plusG (.cls .word))]

/-- The first stage of `extractHydrationLevel`: capture the word after a
hydration phrase and bucket it by the three keyword groups
(`hydrationText` is lower-cased before the case-sensitive group
matches). -/
def hydrationPrimary (s : Txt) : Option HydrationLevel :=
  match reSearch hydrationRE s with
  | some (some g) =>
    if g.isEmpty then none
    else
      let w := (rawOf g).map Char.toLower
      if ["low", "inadequate", "poor", "insufficient", "dehydrat"].any
          (fun p => containsR w p.data) then some .low
      else if ["normal", "adequate", "sufficient", "okay", "ok", "fine"].any
          (fun p => containsR w p.data) then some .normal
      else if ["good", "excellent", "great", "optimal", "well", "high"].any
          (fun p => containsR w p.data) then some .good
      else none
  | _ => none

/-- `extractHydrationLevel` (poop-health handler): primary regex bucket
first; only when it yields nothing do the whole-text `dehydrat` /
`well hydrated` checks apply. -/
def extractHydrationLevel (analysisText : String) : Option HydrationLevel :=
  let s := prep analysisText
  match hydrationPrimary s with
  | some h => some h
  | none =>
    if containsL s (String.data "dehydrat") then some .low
    else if containsL s (String.data "well hydrated") then some .good
    else none

/-! ### Specialist-recommendation booleans -/

def dentistVisitKeywords : List String :=
  ["visit a dentist", "dental professional", "dentist", "dental checkup",
   "dental visit", "professional cleaning", "dental consultation",
   "see a dentist", "dental attention", "dental care needed",
   "professional examination", "dental treatment"]

/-- `shouldRecommendDentist` (dental-check handler): keyword in the text,
keyword in a concern, or at least three concerns. -/
def shouldRecommendDentist (analysisText : String) (concerns : List String) : Bool :=
  let s := prep analysisText
  dentistVisitKeywords.any (fun kw => containsL s kw.data) ||
  concerns.any (fun c => dentistVisitKeywords.any (fun kw => containsL (prep c) kw.data)) ||
  decide (concerns.length ≥ 3)

def dermatologistKeywords : List String :=
  ["dermatologist", "skin specialist", "medical attention",
   "professional opinion", "medical consultation", "doctor",
   "healthcare provider", "medical professional", "seek treatment",
   "medical advice", "professional evaluation"]

def seriousConditions : List String :=
  ["melanoma", "basal cell", "squamous cell", "skin cancer",
   "infection", "severe", "spreading", "worsen", "ulcer"]

/-- `shouldRecommendDermatologist` (skin-tracker handler). -/
def shouldRecommendDermatologist (analysisText : String) (concerns : List String) : Bool :=
  let s := prep analysisText
  dermatologistKeywords.any (fun kw => containsL s kw.data) ||
  concerns.any (fun c => dermatologistKeywords.any (fun kw => containsL (prep c) kw.data)) ||
  seriousConditions.any (fun kw => containsL s kw.data) ||
  (match extractSeverityScore analysisText with
   | some n => decide (n ≥ 7)
   | none => false)

def doctorKeywords : List String :=
  ["consult", "doctor", "physician", "medical", "healthcare provider",
   "professional", "evaluation", "clinical", "specialist", "gastroenterologist",
   "visit", "appointment", "checkup", "check-up", "attention"]

def severeKeywords : List String :=
  ["blood", "bleeding", "black stool", "tarry", "parasite",
   "severe", "extreme", "persistent", "chronic", "continuous"]

/-- `shouldRecommendDoctor` (poop-health handler): doctor keyword in text
or concerns, a severe keyword, or an extreme Bristol type (1 or 7). -/
def shouldRecommendDoctor (analysisText : String) (concerns : List String) : Bool :=
  let s := prep analysisText
  doctorKeywords.any (fun kw => containsL s kw.data) ||
  concerns.any (fun c => doctorKeywords.any (fun kw => containsL (prep c) kw.data)) ||
  severeKeywords.any (fun kw => containsL s kw.data) ||
  (match extractBristolType analysisText with
   | some 1 => true
   | some 7 => true
   | _ => false)

/-! ### Vision call adapter (`analyzeImage`, openai.ts lines 13-134) -/

/-- Result type of the current `analyzeImage`. -/
structure VisionResult where
  text : String
  success : Bool
  deriving DecidableEq

/-- `'can\'t analyze'` — built without an apostrophe character literal. -/
def cantAnalyzePattern : String :=
  "can" ++ String.mk [Char.ofNat 39] ++ "t analyze"

/-- `unableToAnalyzePatterns` (openai.ts lines 68-121), in source order. -/
def unableToAnalyzePatterns : List String :=
  ["unable to analyze", "cannot analyze", "could not analyze",
   "not able to analyze", cantAnalyzePattern, "cannot see",
   "cannot identify", "cannot determine", "unable to identify",
   "unable to see", "unable to assess", "unable to provide",
   "cannot provide", "cannot properly analyze", "cannot make out",
   "unclear image", "image is unclear", "image is too blurry",
   "blurry image", "poor quality image", "low resolution",
   "insufficient detail", "not clear enough", "image quality is",
   "difficult to see",
   "no visible", "not visible", "nothing visible", "cannot visualize",
   "cannot observe", "not showing", "not present in",
   "insufficient visibility",
   "inappropriate content", "inappropriate image", "offensive content",
   "violates guidelines", "not appropriate",
   "better image is required", "clearer image", "higher quality image",
   "need a better", "please provide a clearer"]

/-- The transport environment `analyzeImage` observes: the credential
lookup, the HTTP response and the decoded choice list. -/
structure OpenAIEnv where
  apiKey : Option String
  httpOk : Bool
  httpStatus : Nat
  httpErrorText : String
  choices : List String
  deriving DecidableEq

/-- The body of the `try` block of `analyzeImage`: the three `throw`
sites become `Except.error`; an empty choice list and a refusal phrasing
produce `success := false` results directly. -/
def tryAnalyzeImage (env : OpenAIEnv) : Except String VisionResult :=
  if env.apiKey = none ∨ env.apiKey = some "" then
    .error "OpenAI API key not configured"
  else if !env.httpOk then
    .error ("OpenAI API error: " ++ toString env.httpStatus ++ " " ++ env.httpErrorText)
  else
    match env.choices with
    | [] => .ok { text := "No analysis results returned from OpenAI", success := false }
    | content :: _ =>
      if unableToAnalyzePatterns.any (fun p => hasSubLower content p) then
        .ok { text := content, success := false }
      else
        .ok { text := content, success := true }

/-- `analyzeImage` (current openai.ts): the surrounding `catch` logs and
returns `{ text: error.message, success: false }` — the function never
lets an error escape.  The image payload and prompt do not influence the
observable result and are kept only for the signature. -/
def analyzeImage (env : OpenAIEnv) (_imageBase64 : String) (_prompt : String) :
    VisionResult :=
  match tryAnalyzeImage env with
  | .ok r => r
  | .error msg => { text := msg, success := false }

/-! ### Dynamic values in the skin-tracker handler

The skin-tracker handler binds `const analysisText = await
analyzeImage(...)` and then passes that value — now a `{text, success}`
object, not a string — to the string-processing helpers.  `JSVal`
models the two runtime shapes such a value can take, and the helpers
below mirror which string operations are guarded by a `try/catch` in the
source. -/

inductive JSVal where
  | str (s : String)
  | vres (v : VisionResult)
  deriving DecidableEq

/-- Message of the TypeError raised by `analysisText.toLowerCase()` on a
non-string. -/
def toLowerCaseTypeErr : String := "analysisText.toLowerCase is not a function"

/-- Message of the TypeError raised by `analysisText.match(...)` on a
non-string. -/
def matchTypeErr : String := "analysisText.match is not a function"

/-- `v.match(re)` post-processed into section items; a non-string raises
a TypeError. -/
def jsvSection (v : JSVal) (re : RE) : Except String (List String) :=
  match v with
  | .str s => .ok (sectionOf re (prep s))
  | .vres _ => .error matchTypeErr

/-- Result record of `parseAnalysisResults` when fed a dynamic value:
`analysis` holds whatever was passed in. -/
structure ParsedResultJS where
  analysis : JSVal
  concerns : List String
  recommendations : List String
  deriving DecidableEq

/-- `parseAnalysisResults` applied to a dynamic value: its `try/catch`
turns the TypeError of the first `match` call into the fallback result
(input unchanged, empty lists). -/
def parseAnalysisResultsJS (v : JSVal) : ParsedResultJS :=
  match (do
      let cs ← jsvSection v concernsRE
      let rs ← jsvSection v recommendationsRE
      pure (cs, rs) : Except String (List String × List String)) with
  | .ok (cs, rs) => { analysis := v, concerns := cs, recommendations := rs }
  | .error _ => { analysis := v, concerns := [], recommendations := [] }

/-- `extractSkinConditions` on a dynamic value: its `try/catch` returns
`[]` on the TypeError. -/
def extractSkinConditionsJS (v : JSVal) : List String :=
  match v with
  | .str s => extractSkinConditions s
  | .vres _ => []

/-- `extractSeverityScore` on a dynamic value: its `try/catch` returns
`undefined` on the TypeError. -/
def extractSeverityScoreJS (v : JSVal) : Option Nat :=
  match v with
  | .str s => extractSeverityScore s
  | .vres _ => none

/-- `shouldRecommendDermatologist` on a dynamic value: it has no
`try/catch`, so the TypeError of the first `toLowerCase()` call
escapes. -/
def shouldRecommendDermatologistJS (v : JSVal) (concerns : List String) :
    Except String Bool :=
  match v with
  | .str s => .ok (shouldRecommendDermatologist s concerns)
  | .vres _ => .error toLowerCaseTypeErr

/-! ### Shared utils (`utils.ts`) -/

/-- Parsed request body common to the five handlers. -/
structure ReqBody where
  image : Option String
  userId : Option String
  findProviders : Bool
  hasLocation : Bool
  deriving DecidableEq

/-- Field lookup for `validateRequiredFields`: `none` models both a
missing key and an explicit `undefined`/`null`. -/
def bodyField (b : ReqBody) (name : String) : Option String :=
  if name = "image" then b.image
  else if name = "userId" then b.userId
  else none

/-- `validateRequiredFields` (utils.ts lines 84-91): first field that is
`undefined`, `null` or `''` yields the error message. -/
def validateRequiredFields (b : ReqBody) : List String → Option String
  | [] => none
  | f :: rest =>
    match bodyField b f with
    | none => some ("Missing required field: " ++ f)
    | some v =>
      if v = "" then some ("Missing required field: " ++ f)
      else validateRequiredFields b rest

/-- Observable part of a `Response` the handlers build: HTTP status plus
the `success`/`error` envelope fields. -/
structure HttpResp where
  status : Nat
  success : Bool
  error : Option String
  deriving DecidableEq

/-- Which side-effecting collaborators a request reached. -/
structure Trace where
  visionCalled : Bool
  extractCalled : Bool
  persistCalled : Bool
  lookupCalled : Bool
  deriving DecidableEq

/-- `errorResponse` (utils.ts lines 65-79). -/
def errorResponse (message : String) (status : Nat) : HttpResp :=
  { status := status, success := false, error := some message }

/-! ### The five request orchestrators

Each handler is modelled as a function of the request method, the parsed
body, the vision-adapter outcome and the storage outcome; it returns the
response envelope and a trace of which collaborators were invoked.  The
CORS-preflight branch returns the bare `'ok'` response, modelled with
status 200. -/

/-- Common shape of the dental/posture/nutrition/stool handlers, which
all check `analysisResult.success` before extracting.  `domainWord` is
the word in the soft-failure and crash messages (`dental`, `posture`,
`food`, `stool`). -/
def checkedHandler (domainWord : String) (method : String) (body : ReqBody)
    (vision : VisionResult) (_store : Option String) : HttpResp × Trace :=
  if method = "OPTIONS" then
    ({ status := 200, success := true, error := none },
     ⟨false, false, false, false⟩)
  else if method ≠ "POST" then
    (errorResponse "Method not allowed" 405, ⟨false, false, false, false⟩)
  else
    match validateRequiredFields body ["image"] with
    | some msg => (errorResponse msg 400, ⟨false, false, false, false⟩)
    | none =>
      if !vision.success then
        (errorResponse ("Unable to analyze the " ++ domainWord ++ " image: " ++ vision.text) 400,
         ⟨true, false, false, false⟩)
      else
        ({ status := 200, success := true, error := none },
         ⟨true, true, body.userId.isSome,
          body.userId.isSome && body.hasLocation && body.findProviders⟩)

def dentalCheckHandler : String → ReqBody → VisionResult → Option String → HttpResp × Trace :=
  checkedHandler "dental"

def postureCheckHandler : String → ReqBody → VisionResult → Option String → HttpResp × Trace :=
  checkedHandler "posture"

def nutriSnapHandler : String → ReqBody → VisionResult → Option String → HttpResp × Trace :=
  checkedHandler "food"

def poopHealthHandler : String → ReqBody → VisionResult → Option String → HttpResp × Trace :=
  checkedHandler "stool"

/-- The skin-tracker handler: it never inspects `success`; the adapter
result object flows into the string helpers, and the unguarded
`toLowerCase()` in `shouldRecommendDermatologist` raises a TypeError
that the outer `catch` converts into a 500 response — before the
persistence block is reached. -/
def skinTrackerHandler (method : String) (body : ReqBody) (vision : VisionResult)
    (_store : Option String) : HttpResp × Trace :=
  if method = "OPTIONS" then
    ({ status := 200, success := true, error := none },
     ⟨false, false, false, false⟩)
  else if method ≠ "POST" then
    (errorResponse "Method not allowed" 405, ⟨false, false, false, false⟩)
  else
    match validateRequiredFields body ["image"] with
    | some msg => (errorResponse msg 400, ⟨false, false, false, false⟩)
    | none =>
      let analysisText : JSVal := .vres vision
      let parsed := parseAnalysisResultsJS analysisText
      let _conditions := extractSkinConditionsJS analysisText
      let _severity := extractSeverityScoreJS analysisText
      match shouldRecommendDermatologistJS analysisText parsed.concerns with
      | .error e =>
        (errorResponse ("Error analyzing skin image: " ++ e) 500,
         ⟨true, true, false, false⟩)
      | .ok _ =>
        ({ status := 200, success := true, error := none },
         ⟨true, true, body.userId.isSome,
          body.userId.isSome && body.hasLocation && body.findProviders⟩)

/-! ### `successResponse` normalisation (utils.ts lines 10-56) -/

/-- A JavaScript object field: missing key, key with a falsy
`undefined`/`null` value, or a real value. -/
inductive JField (α : Type) where
  | absent
  | nullish
  | val (a : α)
  deriving DecidableEq

/-- Macro-nutrient record standing in for the `nutritionalInfo` object. -/
structure NutInfo where
  calories : Option Nat
  protein : Option Nat
  carbs : Option Nat
  fat : Option Nat
  fiber : Option Nat
  deriving DecidableEq

def emptyNutInfo : NutInfo := ⟨none, none, none, none, none⟩

/-- The data object `successResponse` receives. -/
structure RespData where
  created_at : JField String
  concerns : JField (List String)
  recommendations : JField (List String)
  skinConditions : JField (List String)
  dentalIssues : JField (List String)
  postureIssues : JField (List String)
  exerciseRecommendations : JField (List String)
  foodItems : JField (List String)
  abnormalities : JField (List String)
  nutritionalInfo : JField NutInfo
  deriving DecidableEq

/-- `!data.created_at`: a string field is falsy when missing, nullish or
the empty string. -/
def strFieldFalsy : JField String → Bool
  | .absent => true
  | .nullish => true
  | .val s => s = ""

/-- `if (!data.f) data.f = []` — arrays are always truthy, so only a
missing or nullish field is replaced. -/
def fillList (f : JField (List String)) : JField (List String) :=
  match f with
  | .val l => .val l
  | _ => .val []

/-- `if ('f' in data && !data.f) data.f = []` — replaced only when the
key is present with a falsy value. -/
def fillDomainList (f : JField (List String)) : JField (List String) :=
  match f with
  | .nullish => .val []
  | x => x

/-- The in-place normalisation `successResponse` performs before
serialising, with `now` standing for `new Date().toISOString()`. -/
def normalizeRespData (d : RespData) (now : String) : RespData :=
  { created_at := if strFieldFalsy d.created_at then .val now else d.created_at
    concerns := fillList d.concerns
    recommendations := fillList d.recommendations
    skinConditions := fillDomainList d.skinConditions
    dentalIssues := fillDomainList d.dentalIssues
    postureIssues := fillDomainList d.postureIssues
    exerciseRecommendations := fillDomainList d.exerciseRecommendations
    foodItems := fillDomainList d.foodItems
    abnormalities := fillDomainList d.abnormalities
    nutritionalInfo :=
      match d.nutritionalInfo with
      | .nullish => .val emptyNutInfo
      | x => x }

/-- `successResponse` (utils.ts lines 10-56): normalise the data object
and wrap it in a `{success: true, data}` envelope with the given status
(default 200 at every call site). -/
def successResponse (d : RespData) (now : String) (status : Nat) :
    HttpResp × RespData :=
  ({ status := status, success := true, error := none }, normalizeRespData d now)

/-- A dental analysis fixture (the shape of the repository test
fixture in dental-check.test.ts, with its contraction spelled out):
used to check the embedding against the behaviour the repository tests
assert. -/
def mockDentalAnalysis : String :=
  "\nAssessment:\nThe image shows teeth with some visible issues. The gums appear slightly reddened, which could indicate mild gingivitis. There is visible plaque buildup on the lower front teeth. One tooth appears to have a small cavity forming.\n\nConcerns:\n- Mild gingivitis indicated by reddened gums\n- Plaque buildup on lower teeth\n- Potential early cavity on one tooth\n- Some staining visible on several teeth\n\nRecommendations:\n- Improve brushing technique, especially on lower front teeth\n- Regular flossing to reduce gum inflammation\n- Consider a dental checkup to address the potential cavity\n- Use a fluoride mouthwash to strengthen enamel\n\nBased on what I can see, this has an oral hygiene score of 6/10. A professional dental cleaning would be beneficial.\n"

/-! ### Generic lemmas about `dedupFirst` -/

theorem dedupFirstGo_sublist (l : List String) :
    ∀ seen, List.Sublist (dedupFirstGo seen l) l := by
  induction l with
  | nil => intro seen; simp [dedupFirstGo]
  | cons x xs ih =>
    intro seen
    simp only [dedupFirstGo]
    split
    · exact (ih seen).trans (List.sublist_cons_self x xs)
    · exact (ih (x :: seen)).cons₂ x

theorem dedupFirstGo_nodup_aux (l : List String) :
    ∀ seen, (dedupFirstGo seen l).Nodup ∧
      ∀ x, x ∈ dedupFirstGo seen l → x ∉ seen := by
  induction l with
  | nil => intro seen; simp [dedupFirstGo]
  | cons x xs ih =>
    intro seen
    simp only [dedupFirstGo]
    split
    · rename_i hx
      refine ⟨(ih seen).1, fun y hy => (ih seen).2 y hy⟩
    · rename_i hx
      obtain ⟨hnd, hmem⟩ := ih (x :: seen)
      constructor
      · refine List.nodup_cons.2 ⟨fun hc => ?_, hnd⟩
        exact hmem x hc (List.mem_cons_self x seen)
      · intro y hy hseen
        rcases List.mem_cons.1 hy with rfl | hy'
        · exact hx hseen
        · exact hmem y hy' (List.mem_cons_of_mem x hseen)

/-- The output of `dedupFirst` has no duplicates (exact string
equality). -/
theorem dedupFirst_nodup (l : List String) : (dedupFirst l).Nodup :=
  (dedupFirstGo_nodup_aux l []).1

/-- `dedupFirst` keeps entries in their original order. -/
theorem dedupFirst_sublist (l : List String) : List.Sublist (dedupFirst l) l :=
  dedupFirstGo_sublist l []

theorem dedupFirstGo_mem_of_mem (l : List String) :
    ∀ seen x, x ∈ l → x ∈ dedupFirstGo seen l ∨ x ∈ seen := by
  induction l with
  | nil => intro seen x hx; cases hx
  | cons y ys ih =>
    intro seen x hx
    simp only [dedupFirstGo]
    split
    · rename_i hy
      rcases List.mem_cons.1 hx with rfl | hx'
      · exact Or.inr hy
      · exact ih seen x hx'
    · rename_i hy
      rcases List.mem_cons.1 hx with rfl | hx'
      · exact Or.inl (List.mem_cons_self _ _)
      · rcases ih (y :: seen) x hx' with h | h
        · exact Or.inl (List.mem_cons_of_mem _ h)
        · rcases List.mem_cons.1 h with rfl | h'
          · exact Or.inl (List.mem_cons_self _ _)
          · exact Or.inr h'

/-- `dedupFirst` keeps exactly the elements of its input. -/
theorem dedupFirst_mem_iff (l : List String) (x : String) :
    x ∈ dedupFirst l ↔ x ∈ l := by
  constructor
  · intro h; exact (dedupFirst_sublist l).subset h
  · intro h
    rcases dedupFirstGo_mem_of_mem l [] x h with h' | h'
    · exact h'
    · cases h'

theorem dedupFirstGo_seen_ext (l : List String) :
    ∀ seen seen', (∀ y, y ∈ seen ↔ y ∈ seen') →
      dedupFirstGo seen l = dedupFirstGo seen' l := by
  induction l with
  | nil => intro _ _ _; rfl
  | cons x xs ih =>
    intro seen seen' hiff
    simp only [dedupFirstGo]
    by_cases hx : x ∈ seen
    · rw [if_pos hx, if_pos ((hiff x).1 hx)]
      exact ih seen seen' hiff
    · rw [if_neg hx, if_neg (fun hc => hx ((hiff x).2 hc))]
      refine congrArg (x :: ·) (ih _ _ ?_)
      intro y
      simp only [List.mem_cons]
      exact or_congr Iff.rfl (hiff y)

theorem dedupFirstGo_filter (l : List String) :
    ∀ seen a, dedupFirstGo (a :: seen) l =
      dedupFirstGo seen (l.filter (fun y => y != a)) := by
  induction l with
  | nil => intro _ _; rfl
  | cons x xs ih =>
    intro seen a
    rw [List.filter_cons]
    by_cases hxa : x = a
    · subst hxa
      have hb : (x != x) = false := by simp
      rw [hb]
      simp only [Bool.false_eq_true, if_false]
      simp only [dedupFirstGo, if_pos (List.mem_cons_self x seen)]
      exact ih seen x
    · have hb : (x != a) = true := by simp [hxa]
      rw [hb]
      simp only [if_true]
      have hmemiff : x ∈ a :: seen ↔ x ∈ seen := by
        simp only [List.mem_cons]
        exact or_iff_right hxa
      by_cases hx : x ∈ seen
      · simp only [dedupFirstGo, if_pos (hmemiff.2 hx), if_pos hx]
        exact ih seen a
      · simp only [dedupFirstGo, if_neg (fun hc => hx (hmemiff.1 hc)), if_neg hx]
        refine congrArg (x :: ·) ?_
        rw [dedupFirstGo_seen_ext xs (x :: a :: seen) (a :: x :: seen)
          (by intro y; simp only [List.mem_cons]; tauto)]
        exact ih (x :: seen) a

/-- The first occurrence wins: deduplication removes exactly the later
copies of the head. -/
theorem dedupFirst_cons (x : String) (xs : List String) :
    dedupFirst (x :: xs) = x :: dedupFirst (xs.filter (fun y => y != x)) := by
  have h : dedupFirst (x :: xs) = x :: dedupFirstGo [x] xs := by
    simp [dedupFirst, dedupFirstGo]
  rw [h]
  exact congrArg (x :: ·) (dedupFirstGo_filter xs [] x)

/-! ### Failure lemmas for the matcher

A regex whose first element is an alternation of literals can only match
at a position where one of the literals is a prefix; these lemmas
propagate literal-prefix failure to the whole search. -/

theorem mtch_lit_none {p : List Char} {s : Txt} (h : stripPrefixL p s = none) :
    ∀ f c k, mtch f (.lit p) s c k = none := by
  intro f c k
  cases f with
  | zero => rfl
  | succ f => simp [mtch, h]

theorem mtch_alt_none {a b : RE} {s : Txt}
    (ha : ∀ f c k, mtch f a s c k = none)
    (hb : ∀ f c k, mtch f b s c k = none) :
    ∀ f c k, mtch f (.alt a b) s c k = none := by
  intro f c k
  cases f with
  | zero => rfl
  | succ f => simp [mtch, orElse2, ha, hb]

theorem mtch_cat_none {a b : RE} {s : Txt}
    (ha : ∀ f c k, mtch f a s c k = none) :
    ∀ f c k, mtch f (.cat a b) s c k = none := by
  intro f c k
  cases f with
  | zero => rfl
  | succ f => simp [mtch, ha]

theorem containsL_false_strip {t : Txt} {p : List Char}
    (h : containsL t p = false) : stripPrefixL p t = none := by
  rw [containsL.eq_def] at h
  have hl := (Bool.or_eq_false_iff.1 h).1
  cases hs : stripPrefixL p t with
  | none => rfl
  | some _ => rw [hs] at hl; simp at hl

theorem containsL_false_tail {c : Tok} {t : Txt} {p : List Char}
    (h : containsL (c :: t) p = false) : containsL t p = false := by
  rw [containsL.eq_def] at h
  exact (Bool.or_eq_false_iff.1 h).2

/-- If none of the four concern-header synonyms is a prefix here, the
concerns regex cannot match here. -/
theorem mtch_concernsRE_none {s : Txt}
    (h1 : stripPrefixL (String.data "concerns") s = none)
    (h2 : stripPrefixL (String.data "potential concerns") s = none)
    (h3 : stripPrefixL (String.data "issues") s = none)
    (h4 : stripPrefixL (String.data "potential issues") s = none) :
    ∀ f c k, mtch f concernsRE s c k = none :=
  mtch_cat_none
    (mtch_alt_none (mtch_lit_none h1)
      (mtch_alt_none (mtch_lit_none h2)
        (mtch_alt_none (mtch_lit_none h3) (mtch_lit_none h4))))

/-- Likewise for the recommendations regex. -/
theorem mtch_recommendationsRE_none {s : Txt}
    (h1 : stripPrefixL (String.data "recommendations") s = none)
    (h2 : stripPrefixL (String.data "suggested actions") s = none)
    (h3 : stripPrefixL (String.data "advice") s = none)
    (h4 : stripPrefixL (String.data "suggestions") s = none) :
    ∀ f c k, mtch f recommendationsRE s c k = none :=
  mtch_cat_none
    (mtch_alt_none (mtch_lit_none h1)
      (mtch_alt_none (mtch_lit_none h2)
        (mtch_alt_none (mtch_lit_none h3) (mtch_lit_none h4))))

/-- A text containing no concern-header synonym has no match of the
concerns regex at any position. -/
theorem reSearch_concernsRE_none :
    ∀ t : Txt,
      containsL t (String.data "concerns") = false →
      containsL t (String.data "potential concerns") = false →
      containsL t (String.data "issues") = false →
      containsL t (String.data "potential issues") = false →
      reSearch concernsRE t = none := by
  intro t
  induction t with
  | nil =>
    intro h1 h2 h3 h4
    have hm := mtch_concernsRE_none (containsL_false_strip h1)
      (containsL_false_strip h2) (containsL_false_strip h3)
      (containsL_false_strip h4)
    simp [reSearch, reTry, hm]
  | cons c rest ih =>
    intro h1 h2 h3 h4
    have hm := mtch_concernsRE_none (containsL_false_strip h1)
      (containsL_false_strip h2) (containsL_false_strip h3)
      (containsL_false_strip h4)
    have hrec := ih (containsL_false_tail h1) (containsL_false_tail h2)
      (containsL_false_tail h3) (containsL_false_tail h4)
    simp [reSearch, reTry, hm, hrec]

/-- A text containing no recommendation-header synonym has no match of
the recommendations regex at any position. -/
theorem reSearch_recommendationsRE_none :
    ∀ t : Txt,
      containsL t (String.data "recommendations") = false →
      containsL t (String.data "suggested actions") = false →
      containsL t (String.data "advice") = false →
      containsL t (String.data "suggestions") = false →
      reSearch recommendationsRE t = none := by
  intro t
  induction t with
  | nil =>
    intro h1 h2 h3 h4
    have hm := mtch_recommendationsRE_none (containsL_false_strip h1)
      (containsL_false_strip h2) (containsL_false_strip h3)
      (containsL_false_strip h4)
    simp [reSearch, reTry, hm]
  | cons c rest ih =>
    intro h1 h2 h3 h4
    have hm := mtch_recommendationsRE_none (containsL_false_strip h1)
      (containsL_false_strip h2) (containsL_false_strip h3)
      (containsL_false_strip h4)
    have hrec := ih (containsL_false_tail h1) (containsL_false_tail h2)
      (containsL_false_tail h3) (containsL_false_tail h4)
    simp [reSearch, reTry, hm, hrec]

/-- The keyword fallback adds nothing when no keyword occurs in the
text. -/
theorem kwFold_no_keyword {t : Txt} {sents : List Txt} :
    ∀ kws acc, (∀ kw ∈ kws, containsL t kw = false) →
      kwFold t sents kws acc = acc := by
  intro kws
  induction kws with
  | nil => intro acc _; rfl
  | cons k ks ih =>
    intro acc h
    have hk : containsL t k = false := h k (List.mem_cons_self k ks)
    simp only [kwFold, hk, Bool.false_and, if_false, Bool.false_eq_true]
    exact ih acc (fun kw hkw => h kw (List.mem_cons_of_mem k hkw))

/-! ### Bound lemmas for the score extractors -/

theorem scoreOf_none_or_bounded (re : RE) (lo hi : Nat) (t : String) :
    scoreOf re lo hi t = none ∨
      ∃ n, scoreOf re lo hi t = some n ∧ lo ≤ n ∧ n ≤ hi := by
  rcases hs : reSearch re (prep t) with _ | c
  · left; simp [scoreOf, hs]
  · rcases c with _ | g
    · left; simp [scoreOf, hs]
    · rcases hg : g.isEmpty with _ | _
      · by_cases hb : lo ≤ parseDigits (rawOf g) ∧ parseDigits (rawOf g) ≤ hi
        · right
          exact ⟨parseDigits (rawOf g), by simp [scoreOf, hs, hg, hb], hb.1, hb.2⟩
        · left; simp [scoreOf, hs, hg, hb]
      · left; simp [scoreOf, hs, hg]

theorem bristolStage_none_or_bounded (re : RE) (s : Txt) :
    bristolStage re s = none ∨
      ∃ n, bristolStage re s = some n ∧ 1 ≤ n ∧ n ≤ 7 := by
  rcases hs : reSearch re s with _ | c
  · left; simp [bristolStage, hs]
  · rcases c with _ | g
    · left; simp [bristolStage, hs]
    · rcases hg : g.isEmpty with _ | _
      · by_cases hb : 1 ≤ parseDigits (rawOf g) ∧ parseDigits (rawOf g) ≤ 7
        · right
          exact ⟨parseDigits (rawOf g), by simp [bristolStage, hs, hg, hb], hb.1, hb.2⟩
        · left; simp [bristolStage, hs, hg, hb]
      · left; simp [bristolStage, hs, hg]

theorem extractBristolType_none_or_bounded (t : String) :
    extractBristolType t = none ∨
      ∃ n, extractBristolType t = some n ∧ 1 ≤ n ∧ n ≤ 7 := by
  have hdef : extractBristolType t =
      (match bristolStage bristolRE1 (prep t) with
       | some n => some n
       | none => bristolStage bristolRE2 (prep t)) := rfl
  rw [hdef]
  rcases bristolStage_none_or_bounded bristolRE1 (prep t) with h1 | ⟨n, h1, hlo, hhi⟩
  · rw [h1]
    rcases bristolStage_none_or_bounded bristolRE2 (prep t) with h2 | ⟨n, h2, hlo, hhi⟩
    · left; simpa using h2
    · right; exact ⟨n, by simpa using h2, hlo, hhi⟩
  · right; exact ⟨n, by rw [h1], hlo, hhi⟩

/-! ### Claim theorems -/

/-- C1: on the spec's Scenario A text, `parseAnalysisResults` extracts
the two concern lines but returns an empty recommendations list: the
`\Z` in the recommendations regex is a literal `Z`/`z` in JavaScript,
not an end-of-input anchor, so a trailing Recommendations section that
is not followed by a blank line is never captured.  This refutes the
claim that it returns `recommendations = ["Floss daily"]`. -/
theorem c1_parse_scenario_a :
    parseAnalysisResults
        "Concerns:\n- Mild gingivitis\n- Plaque buildup\n\nRecommendations:\n- Floss daily\n" =
      { analysis :=
          "Concerns:\n- Mild gingivitis\n- Plaque buildup\n\nRecommendations:\n- Floss daily\n"
        concerns := ["Mild gingivitis", "Plaque buildup"]
        recommendations := [] } := by decide

/-- C4: every score extractor is total and returns `none` or an integer
within its bound (`[1,10]`, `[1,7]` for the Bristol type); a matched
number outside the bound yields `none`, never a clamped value; on the
spec's Scenario B inputs the hygiene extractor returns 6 and `none`
respectively. -/
theorem c4_score_extractors_bounded :
    (∀ t, extractOralHygieneScore t = none ∨
      ∃ n, extractOralHygieneScore t = some n ∧ 1 ≤ n ∧ n ≤ 10) ∧
    (∀ t, extractSeverityScore t = none ∨
      ∃ n, extractSeverityScore t = some n ∧ 1 ≤ n ∧ n ≤ 10) ∧
    (∀ t, extractPostureScore t = none ∨
      ∃ n, extractPostureScore t = some n ∧ 1 ≤ n ∧ n ≤ 10) ∧
    (∀ t, extractHealthScore t = none ∨
      ∃ n, extractHealthScore t = some n ∧ 1 ≤ n ∧ n ≤ 10) ∧
    (∀ t, extractBristolType t = none ∨
      ∃ n, extractBristolType t = some n ∧ 1 ≤ n ∧ n ≤ 7) ∧
    extractOralHygieneScore "oral hygiene score of 6/10" = some 6 ∧
    extractOralHygieneScore "score of 11/10" = none ∧
    extractOralHygieneScore "oral hygiene score of 11/10" = none := by
  refine ⟨fun t => scoreOf_none_or_bounded hygieneScoreRE 1 10 t,
    fun t => scoreOf_none_or_bounded severityScoreRE 1 10 t,
    fun t => scoreOf_none_or_bounded postureScoreRE 1 10 t,
    fun t => scoreOf_none_or_bounded healthScoreRE 1 10 t,
    fun t => extractBristolType_none_or_bounded t,
    by decide, by decide, by decide⟩

/-- C5: `parseAnalysisResults` is total, keeps the input verbatim in
`analysis`, and returns two empty lists whenever the text contains none
of the eight section-header synonyms the two regexes look for. -/
theorem c5_parse_total_identity_fallback (t : String) :
    (parseAnalysisResults t).analysis = t ∧
    (hasSubLower t "concerns" = false →
     hasSubLower t "potential concerns" = false →
     hasSubLower t "issues" = false →
     hasSubLower t "potential issues" = false →
     hasSubLower t "recommendations" = false →
     hasSubLower t "suggested actions" = false →
     hasSubLower t "advice" = false →
     hasSubLower t "suggestions" = false →
     (parseAnalysisResults t).concerns = [] ∧
     (parseAnalysisResults t).recommendations = []) := by
  refine ⟨rfl, ?_⟩
  intro h1 h2 h3 h4 h5 h6 h7 h8
  have hc := reSearch_concernsRE_none (prep t) h1 h2 h3 h4
  have hr := reSearch_recommendationsRE_none (prep t) h5 h6 h7 h8
  constructor
  · show sectionOf concernsRE (prep t) = []
    simp [sectionOf, hc]
  · show sectionOf recommendationsRE (prep t) = []
    simp [sectionOf, hr]

/-- Witness for C5 at a concrete header-free text. -/
theorem c5_witness :
    (parseAnalysisResults "All good here.").analysis = "All good here." ∧
    (parseAnalysisResults "All good here.").concerns = [] ∧
    (parseAnalysisResults "All good here.").recommendations = [] := by
  obtain ⟨ha, himp⟩ := c5_parse_total_identity_fallback "All good here."
  have h := himp (by decide) (by decide) (by decide) (by decide)
    (by decide) (by decide) (by decide) (by decide)
  exact ⟨ha, h.1, h.2⟩

/-- C7: on the text `"Bristol stool type is 7"` the Bristol extractor
returns `none` — the `\s+is` connector alternative of the regex is not
followed by any whitespace matcher, so `is 7` never matches — and the
doctor heuristic does not fire; with a colon connector
(`"Bristol stool type: 7"`) both behave as the claim describes.  This
refutes Scenario C of the spec. -/
theorem c7_bristol_extreme_value :
    extractBristolType "Bristol stool type is 7" = none ∧
    shouldRecommendDoctor "Bristol stool type is 7" [] = false ∧
    extractBristolType "Bristol stool type: 7" = some 7 ∧
    shouldRecommendDoctor "Bristol stool type: 7" [] = true := by decide

/-- C8 counterexample: a text in which the primary hydration regex
buckets the captured word as `good` while `dehydrat` occurs later — the
result is `good`, so `dehydrat` does not force `low` independently of
the primary regex. -/
theorem c8_cex_primary_regex_takes_precedence :
    hasSubLower "hydration is good. Signs of dehydration." "dehydrat" = true ∧
    extractHydrationLevel "hydration is good. Signs of dehydration." =
      some HydrationLevel.good := by decide

/-- C8 (amended): the `dehydrat`/`well hydrated` whole-text checks apply
only when the primary hydration regex yields no bucket, in which case
`dehydrat` forces `low` and otherwise `well hydrated` forces `good`;
the result is always `none` or one of the three buckets. -/
theorem c8_hydration_buckets (t : String) :
    (extractHydrationLevel t = none ∨
     extractHydrationLevel t = some HydrationLevel.low ∨
     extractHydrationLevel t = some HydrationLevel.normal ∨
     extractHydrationLevel t = some HydrationLevel.good) ∧
    (hydrationPrimary (prep t) = none →
      (hasSubLower t "dehydrat" = true →
        extractHydrationLevel t = some HydrationLevel.low) ∧
      (hasSubLower t "dehydrat" = false →
        hasSubLower t "well hydrated" = true →
        extractHydrationLevel t = some HydrationLevel.good)) := by
  constructor
  · rcases h : extractHydrationLevel t with _ | h'
    · exact Or.inl rfl
    · rcases h' with _ | _ | _
      · exact Or.inr (Or.inl rfl)
      · exact Or.inr (Or.inr (Or.inl rfl))
      · exact Or.inr (Or.inr (Or.inr rfl))
  · intro hp
    constructor
    · intro hd
      simp [extractHydrationLevel, hp, hasSubLower] at hd ⊢
      simp [hd]
    · intro hd hw
      simp [hasSubLower] at hd hw
      simp [extractHydrationLevel, hp, hd, hw]

/-- Witness for C8: the low and good fallback branches at concrete
texts. -/
theorem c8_witness :
    extractHydrationLevel "Signs of dehydration." = some HydrationLevel.low ∧
    extractHydrationLevel "well hydrated stool observed." = some HydrationLevel.good := by
  have h1 := (c8_hydration_buckets "Signs of dehydration.").2 (by decide)
  have h2 := (c8_hydration_buckets "well hydrated stool observed.").2 (by decide)
  exact ⟨h1.1 (by decide), h2.2 (by decide) (by decide)⟩

/-- A keyword-fallback extractor returns `[]` when its section regex
finds nothing and no keyword occurs in the text. -/
theorem keywordExtract_empty {secRE : RE} {kws : List String} {t : String}
    (hsec : reSearch secRE (prep t) = none)
    (hkw : ∀ kw ∈ kws, hasSubLower t kw = false) :
    keywordExtract secRE kws t = [] := by
  have hK : ∀ kw ∈ kws.map String.data, containsL (prep t) kw = false := by
    intro kw hkw'
    rcases List.mem_map.1 hkw' with ⟨k, hk, rfl⟩
    exact hkw k hk
  show dedupFirst ((kwFold (prep t) (splitSentences (prep t)) (kws.map String.data)
    (sectionTxtsOf secRE (prep t))).map strOf) = []
  rw [show sectionTxtsOf secRE (prep t) = [] from by simp [sectionTxtsOf, hsec]]
  rw [kwFold_no_keyword _ _ hK]
  rfl

/-- C6: every list-valued extractor output is deduplicated under exact
string equality with first-occurrence order (it is `dedupFirst` of the
accumulated raw list, and `dedupFirst` is a duplicate-free,
order-preserving, membership-preserving, first-occurrence-keeping
sublist); when neither the section regex nor any fallback matches the
extractor returns the empty list, never a null-like value. -/
theorem c6_list_fields_dedup (t : String) :
    ((extractDentalIssues t).Nodup ∧ (extractSkinConditions t).Nodup ∧
     (extractPostureIssues t).Nodup ∧ (extractExerciseRecommendations t).Nodup ∧
     (extractFoodItems t).Nodup ∧ (extractAbnormalities t).Nodup) ∧
    ((reSearch dentalIssuesRE (prep t) = none →
      (∀ kw ∈ dentalKeywords, hasSubLower t kw = false) →
      extractDentalIssues t = []) ∧
     (reSearch skinConditionsRE (prep t) = none →
      (∀ kw ∈ skinKeywords, hasSubLower t kw = false) →
      extractSkinConditions t = []) ∧
     (reSearch postureIssuesRE (prep t) = none →
      (∀ kw ∈ postureKeywords, hasSubLower t kw = false) →
      extractPostureIssues t = []) ∧
     (reSearch exerciseSecRE (prep t) = none →
      reSearch recFallbackRE (prep t) = none →
      extractExerciseRecommendations t = []) ∧
     (reSearch foodItemsRE (prep t) = none →
      reSearch assessmentRE (prep t) = none →
      extractFoodItems t = []) ∧
     (reSearch abnormalitiesRE (prep t) = none →
      (∀ kw ∈ abnormalityKeywords, hasSubLower t kw = false) →
      extractAbnormalities t = [])) ∧
    (∀ l : List String, (dedupFirst l).Nodup ∧
      List.Sublist (dedupFirst l) l ∧ (∀ x, x ∈ dedupFirst l ↔ x ∈ l)) ∧
    (∀ (x : String) (xs : List String),
      dedupFirst (x :: xs) = x :: dedupFirst (xs.filter (fun y => y != x))) := by
  refine ⟨⟨dedupFirst_nodup _, dedupFirst_nodup _, dedupFirst_nodup _,
      dedupFirst_nodup _, dedupFirst_nodup _, dedupFirst_nodup _⟩,
    ⟨fun hsec hkw => keywordExtract_empty hsec hkw,
     fun hsec hkw => keywordExtract_empty hsec hkw,
     fun hsec hkw => keywordExtract_empty hsec hkw,
     ?_, ?_,
     fun hsec hkw => keywordExtract_empty hsec hkw⟩,
    fun l => ⟨dedupFirst_nodup l, dedupFirst_sublist l, fun x => dedupFirst_mem_iff l x⟩,
    fun x xs => dedupFirst_cons x xs⟩
  · intro hsec1 hsec2
    have h1 : sectionTxtsOf exerciseSecRE (prep t) = [] := by
      simp [sectionTxtsOf, hsec1]
    have h2 : sectionTxtsOf recFallbackRE (prep t) = [] := by
      simp [sectionTxtsOf, hsec2]
    simp [extractExerciseRecommendations, h1, h2, dedupFirst, dedupFirstGo]
  · intro hsec1 hsec2
    have h1 : sectionTxtsOf foodItemsRE (prep t) = [] := by
      simp [sectionTxtsOf, hsec1]
    simp [extractFoodItems, h1, hsec2, dedupFirst, dedupFirstGo]

/-- Witness for C6 at a text with no section and no keyword. -/
theorem c6_witness :
    extractDentalIssues "Hello." = [] ∧
    extractSkinConditions "Hello." = [] ∧
    extractPostureIssues "Hello." = [] ∧
    extractExerciseRecommendations "Hello." = [] ∧
    extractFoodItems "Hello." = [] ∧
    extractAbnormalities "Hello." = [] ∧
    (extractDentalIssues "Hello.").Nodup := by
  obtain ⟨⟨hnd, -, -, -, -, -⟩, ⟨h1, h2, h3, h4, h5, h6⟩, -, -⟩ :=
    c6_list_fields_dedup "Hello."
  exact ⟨h1 (by decide) (by decide), h2 (by decide) (by decide),
    h3 (by decide) (by decide), h4 (by decide) (by decide),
    h5 (by decide) (by decide), h6 (by decide) (by decide), hnd⟩

/-- C9: a POST request whose `image` field is absent, null or empty is
answered 400 with `error = "Missing required field: image"` by all five
handlers, and no vision, persistence or provider-lookup call is made. -/
theorem c9_missing_image_rejected (body : ReqBody) (vision : VisionResult)
    (store : Option String)
    (himg : body.image = none ∨ body.image = some "") :
    dentalCheckHandler "POST" body vision store =
      (errorResponse "Missing required field: image" 400, ⟨false, false, false, false⟩) ∧
    skinTrackerHandler "POST" body vision store =
      (errorResponse "Missing required field: image" 400, ⟨false, false, false, false⟩) ∧
    postureCheckHandler "POST" body vision store =
      (errorResponse "Missing required field: image" 400, ⟨false, false, false, false⟩) ∧
    nutriSnapHandler "POST" body vision store =
      (errorResponse "Missing required field: image" 400, ⟨false, false, false, false⟩) ∧
    poopHealthHandler "POST" body vision store =
      (errorResponse "Missing required field: image" 400, ⟨false, false, false, false⟩) := by
  have happ : "Missing required field: " ++ "image" = "Missing required field: image" := by
    decide
  have hval : validateRequiredFields body ["image"] =
      some "Missing required field: image" := by
    rcases himg with h | h
    · simp [validateRequiredFields, bodyField, h, happ]
    · simp [validateRequiredFields, bodyField, h, happ]
  have hOpt : ¬ (("POST" : String) = "OPTIONS") := by decide
  refine ⟨?_, ?_, ?_, ?_, ?_⟩ <;>
    simp [dentalCheckHandler, skinTrackerHandler, postureCheckHandler,
      nutriSnapHandler, poopHealthHandler, checkedHandler, hval, hOpt,
      errorResponse]

/-- Witness for C9 at a concrete empty-image request. -/
theorem c9_witness :
    dentalCheckHandler "POST"
        { image := some "", userId := some "user-1", findProviders := true,
          hasLocation := true }
        { text := "ok", success := true } (some "row-1") =
      (errorResponse "Missing required field: image" 400, ⟨false, false, false, false⟩) ∧
    skinTrackerHandler "POST"
        { image := some "", userId := some "user-1", findProviders := true,
          hasLocation := true }
        { text := "ok", success := true } (some "row-1") =
      (errorResponse "Missing required field: image" 400, ⟨false, false, false, false⟩) := by
  have h := c9_missing_image_rejected
    { image := some "", userId := some "user-1", findProviders := true, hasLocation := true }
    { text := "ok", success := true } (some "row-1") (Or.inr rfl)
  exact ⟨h.1, h.2.1⟩

/-- C10: `successResponse` wraps the data in a `success := true`
envelope after normalising it: `created_at` ends up non-falsy (set to
the current timestamp when it was falsy), `concerns` and
`recommendations` are always arrays, every present-but-nullish domain
list is replaced by `[]`, and a present-but-nullish `nutritionalInfo`
by the empty record. -/
theorem c10_success_response_envelope (d : RespData) (now : String) (status : Nat)
    (hnow : now ≠ "") :
    (successResponse d now status).1.success = true ∧
    (successResponse d now status).2 = normalizeRespData d now ∧
    strFieldFalsy (normalizeRespData d now).created_at = false ∧
    (strFieldFalsy d.created_at = true →
      (normalizeRespData d now).created_at = JField.val now) ∧
    (∃ l, (normalizeRespData d now).concerns = JField.val l) ∧
    (∃ l, (normalizeRespData d now).recommendations = JField.val l) ∧
    (d.skinConditions = JField.nullish →
      (normalizeRespData d now).skinConditions = JField.val []) ∧
    (d.dentalIssues = JField.nullish →
      (normalizeRespData d now).dentalIssues = JField.val []) ∧
    (d.postureIssues = JField.nullish →
      (normalizeRespData d now).postureIssues = JField.val []) ∧
    (d.exerciseRecommendations = JField.nullish →
      (normalizeRespData d now).exerciseRecommendations = JField.val []) ∧
    (d.foodItems = JField.nullish →
      (normalizeRespData d now).foodItems = JField.val []) ∧
    (d.abnormalities = JField.nullish →
      (normalizeRespData d now).abnormalities = JField.val []) ∧
    (d.nutritionalInfo = JField.nullish →
      (normalizeRespData d now).nutritionalInfo = JField.val emptyNutInfo) := by
  refine ⟨rfl, rfl, ?_, ?_, ?_, ?_, ?_, ?_, ?_, ?_, ?_, ?_, ?_⟩
  · by_cases hc : strFieldFalsy d.created_at = true
    · have hca : (normalizeRespData d now).created_at = JField.val now := by
        simp [normalizeRespData, hc]
      rw [hca]
      simp [strFieldFalsy, hnow]
    · have hcf : strFieldFalsy d.created_at = false := by
        simpa using hc
      have hca : (normalizeRespData d now).created_at = d.created_at := by
        simp [normalizeRespData, hcf]
      rw [hca, hcf]
  · intro hc
    simp [normalizeRespData, hc]
  · rcases hd : d.concerns with _ | _ | l
    · exact ⟨[], by simp [normalizeRespData, fillList, hd]⟩
    · exact ⟨[], by simp [normalizeRespData, fillList, hd]⟩
    · exact ⟨l, by simp [normalizeRespData, fillList, hd]⟩
  · rcases hd : d.recommendations with _ | _ | l
    · exact ⟨[], by simp [normalizeRespData, fillList, hd]⟩
    · exact ⟨[], by simp [normalizeRespData, fillList, hd]⟩
    · exact ⟨l, by simp [normalizeRespData, fillList, hd]⟩
  · intro h; simp [normalizeRespData, fillDomainList, h]
  · intro h; simp [normalizeRespData, fillDomainList, h]
  · intro h; simp [normalizeRespData, fillDomainList, h]
  · intro h; simp [normalizeRespData, fillDomainList, h]
  · intro h; simp [normalizeRespData, fillDomainList, h]
  · intro h; simp [normalizeRespData, fillDomainList, h]
  · intro h; simp [normalizeRespData, h]

/-- Witness for C10 at an all-nullish data object. -/
theorem c10_witness :
    strFieldFalsy (normalizeRespData
      { created_at := .nullish, concerns := .nullish, recommendations := .nullish,
        skinConditions := .nullish, dentalIssues := .nullish, postureIssues := .nullish,
        exerciseRecommendations := .nullish, foodItems := .nullish,
        abnormalities := .nullish, nutritionalInfo := .nullish }
      "2023-06-01T00:00:00.000Z").created_at = false ∧
    (normalizeRespData
      { created_at := .nullish, concerns := .nullish, recommendations := .nullish,
        skinConditions := .nullish, dentalIssues := .nullish, postureIssues := .nullish,
        exerciseRecommendations := .nullish, foodItems := .nullish,
        abnormalities := .nullish, nutritionalInfo := .nullish }
      "2023-06-01T00:00:00.000Z").skinConditions = JField.val [] := by
  have h := c10_success_response_envelope
    { created_at := .nullish, concerns := .nullish, recommendations := .nullish,
      skinConditions := .nullish, dentalIssues := .nullish, postureIssues := .nullish,
      exerciseRecommendations := .nullish, foodItems := .nullish,
      abnormalities := .nullish, nutritionalInfo := .nullish }
    "2023-06-01T00:00:00.000Z" 200 (by decide)
  exact ⟨h.2.2.1, h.2.2.2.2.2.2.1 rfl⟩

/-- C2 counterexample: with the API credential missing, `analyzeImage`
returns a `{text, success := false}` result — not an error — and the
dental orchestrator answers 400, not a 5xx status. -/
theorem c2_cex_transport_failure_is_result :
    analyzeImage ⟨none, true, 200, "", ["All clear"]⟩ "img" "prompt" =
      { text := "OpenAI API key not configured", success := false } ∧
    (dentalCheckHandler "POST" ⟨some "img", none, false, false⟩
        (analyzeImage ⟨none, true, 200, "", ["All clear"]⟩ "img" "prompt") none).1 =
      errorResponse "Unable to analyze the dental image: OpenAI API key not configured" 400 := by
  decide

/-- C2 (amended): a transport-level failure (missing credential,
non-success HTTP status, empty choice list) makes `analyzeImage` return
a caught `{text, success := false}` result, and every orchestrator that
checks `success` terminates with a 400 response embedding that text,
attempting neither extraction nor persistence nor lookup. -/
theorem c2_transport_failure_soft (env : OpenAIEnv) (img prompt : String)
    (body : ReqBody) (store : Option String)
    (henv : env.apiKey = none ∨ env.apiKey = some "" ∨ env.httpOk = false ∨
      env.choices = [])
    (hbody : validateRequiredFields body ["image"] = none) :
    (analyzeImage env img prompt).success = false ∧
    dentalCheckHandler "POST" body (analyzeImage env img prompt) store =
      (errorResponse
        ("Unable to analyze the dental image: " ++ (analyzeImage env img prompt).text) 400,
       ⟨true, false, false, false⟩) ∧
    postureCheckHandler "POST" body (analyzeImage env img prompt) store =
      (errorResponse
        ("Unable to analyze the posture image: " ++ (analyzeImage env img prompt).text) 400,
       ⟨true, false, false, false⟩) ∧
    nutriSnapHandler "POST" body (analyzeImage env img prompt) store =
      (errorResponse
        ("Unable to analyze the food image: " ++ (analyzeImage env img prompt).text) 400,
       ⟨true, false, false, false⟩) ∧
    poopHealthHandler "POST" body (analyzeImage env img prompt) store =
      (errorResponse
        ("Unable to analyze the stool image: " ++ (analyzeImage env img prompt).text) 400,
       ⟨true, false, false, false⟩) := by
  have hsucc : (analyzeImage env img prompt).success = false := by
    by_cases hk : env.apiKey = none ∨ env.apiKey = some ""
    · simp [analyzeImage, tryAnalyzeImage, hk]
    · have hcases : env.httpOk = false ∨ env.choices = [] := by
        rcases henv with h | h | h | h
        · exact absurd (Or.inl h) hk
        · exact absurd (Or.inr h) hk
        · exact Or.inl h
        · exact Or.inr h
      rcases hcases with h | h
      · simp [analyzeImage, tryAnalyzeImage, hk, h]
      · by_cases ho : env.httpOk
        · simp [analyzeImage, tryAnalyzeImage, hk, ho, h]
        · simp [analyzeImage, tryAnalyzeImage, hk, ho]
  have hOpt : ¬ (("POST" : String) = "OPTIONS") := by decide
  refine ⟨hsucc, ?_, ?_, ?_, ?_⟩ <;>
  · show checkedHandler _ "POST" body (analyzeImage env img prompt) store = _
    simp only [checkedHandler, if_neg hOpt, ne_eq, not_true_eq_false,
      if_false, hbody, hsucc, Bool.not_false, if_true]
    refine Prod.ext ?_ rfl
    simp [errorResponse]

/-- Witness for C2 at an empty choice list. -/
theorem c2_witness :
    (analyzeImage ⟨some "key", true, 200, "", []⟩ "img" "p").success = false ∧
    dentalCheckHandler "POST" ⟨some "img", some "user-1", false, false⟩
        (analyzeImage ⟨some "key", true, 200, "", []⟩ "img" "p") (some "row-1") =
      (errorResponse
        ("Unable to analyze the dental image: " ++
          (analyzeImage ⟨some "key", true, 200, "", []⟩ "img" "p").text) 400,
       ⟨true, false, false, false⟩) := by
  have h := c2_transport_failure_soft ⟨some "key", true, 200, "", []⟩ "img" "p"
    ⟨some "img", some "user-1", false, false⟩ (some "row-1")
    (Or.inr (Or.inr (Or.inr rfl))) (by decide)
  exact ⟨h.1, h.2.1⟩

/-- C3: on a soft failure (refusal text `"The image is too blurry to
analyze"`) the four checking handlers answer 400 with the refusal text
embedded and no persistence; the skin-tracker handler, however, never
inspects `success` — the result object flows into the string helpers,
the unguarded `toLowerCase()` raises a TypeError, and the request ends
in a 500, not the claimed 400, even though persistence is (accidentally)
not attempted. -/
theorem c3_soft_failure_handling :
    analyzeImage ⟨some "key", true, 200, "",
        ["The image is too blurry to analyze"]⟩ "img" "p" =
      { text := "The image is too blurry to analyze", success := false } ∧
    skinTrackerHandler "POST" ⟨some "img", some "user-1", false, false⟩
        { text := "The image is too blurry to analyze", success := false } (some "row-1") =
      (errorResponse
        "Error analyzing skin image: analysisText.toLowerCase is not a function" 500,
       ⟨true, true, false, false⟩) ∧
    dentalCheckHandler "POST" ⟨some "img", some "user-1", false, false⟩
        { text := "The image is too blurry to analyze", success := false } (some "row-1") =
      (errorResponse
        "Unable to analyze the dental image: The image is too blurry to analyze" 400,
       ⟨true, false, false, false⟩) ∧
    postureCheckHandler "POST" ⟨some "img", some "user-1", false, false⟩
        { text := "The image is too blurry to analyze", success := false } (some "row-1") =
      (errorResponse
        "Unable to analyze the posture image: The image is too blurry to analyze" 400,
       ⟨true, false, false, false⟩) ∧
    nutriSnapHandler "POST" ⟨some "img", some "user-1", false, false⟩
        { text := "The image is too blurry to analyze", success := false } (some "row-1") =
      (errorResponse
        "Unable to analyze the food image: The image is too blurry to analyze" 400,
       ⟨true, false, false, false⟩) ∧
    poopHealthHandler "POST" ⟨some "img", some "user-1", false, false⟩
        { text := "The image is too blurry to analyze", success := false } (some "row-1") =
      (errorResponse
        "Unable to analyze the stool image: The image is too blurry to analyze" 400,
       ⟨true, false, false, false⟩) := by decide

/-! ### Fidelity checks against the repository test expectations

The repository ships one test file (dental-check.test.ts); the
assertions it makes about the fixture hold of this embedding. -/

/-- The embedded parser reproduces what the repository test asserts
about the fixture: four concerns starting with the gingivitis line, four
recommendations with the checkup line third, and the analysis kept
verbatim. -/
theorem parse_matches_repo_test_fixture :
    (parseAnalysisResults mockDentalAnalysis).analysis = mockDentalAnalysis ∧
    (parseAnalysisResults mockDentalAnalysis).concerns =
      ["Mild gingivitis indicated by reddened gums",
       "Plaque buildup on lower teeth",
       "Potential early cavity on one tooth",
       "Some staining visible on several teeth"] ∧
    (parseAnalysisResults mockDentalAnalysis).recommendations =
      ["Improve brushing technique, especially on lower front teeth",
       "Regular flossing to reduce gum inflammation",
       "Consider a dental checkup to address the potential cavity",
       "Use a fluoride mouthwash to strengthen enamel"] := by decide

/-- The embedded extractors reproduce the remaining repository test
assertions on the fixture: the four section issues (which cover
gingivitis, plaque and cavity), score 6, and a positive dentist
recommendation. -/
theorem extractors_match_repo_test_fixture :
    extractDentalIssues mockDentalAnalysis =
      ["Mild gingivitis indicated by reddened gums",
       "Plaque buildup on lower teeth",
       "Potential early cavity on one tooth",
       "Some staining visible on several teeth"] ∧
    extractOralHygieneScore mockDentalAnalysis = some 6 ∧
    shouldRecommendDentist mockDentalAnalysis
      ["Mild gingivitis indicated by reddened gums",
       "Plaque buildup on lower teeth",
       "Potential early cavity on one tooth"] = true := by decide

/-- The keyword fallback adds whole sentences in keyword order and a
well-terminated recommendations section is parsed in full (sanity checks
of the embedding on small inputs). -/
theorem keyword_fallback_sentence_order :
    extractDentalIssues "There is visible plaque buildup. Also a cavity is forming." =
      ["Also a cavity is forming.", "There is visible plaque buildup."] ∧
    (parseAnalysisResults
      "\nAssessment:\nX\n\nConcerns:\n- A\n- B\n\nRecommendations:\n- C\n- D\n\nEnd.\n").recommendations =
      ["C", "D"] := by decide

end HealthAnalyzer
